import Mathlib

/-!
Shallow embedding of `app.py` (single-topic variant) and
`frigate-viewer/app.py` (multi-topic variant) of the
frigate-mqtt-pricure-viewer repository.

Bytes are modelled as `List Nat` (each element a byte value), Python strings
as lists of Unicode code points, and `time.time()` timestamps as rationals
(every float is a rational; only ordering, truncation and equality of
timestamps are used by the code).
-/

/-- The 3-byte JPEG start-of-image marker `b"\xff\xd8\xff"` compared against
`candidate_bytes[:3]` in both variants. -/
def jpegMarker : List Nat := [255, 216, 255]

/-- Value of a base64 alphabet byte (`table_a2b_base64` of CPython's
`binascii`): `A`-`Z`, `a`-`z`, `0`-`9`, `+`, `/`; `none` for every byte
outside the alphabet (the pad byte `=` 61 is handled by the caller). -/
def b64val (c : Nat) : Option Nat :=
  if 65 ≤ c ∧ c ≤ 90 then some (c - 65)
  else if 97 ≤ c ∧ c ≤ 122 then some (c - 97 + 26)
  else if 48 ≤ c ∧ c ≤ 57 then some (c - 48 + 52)
  else if c = 43 then some 62
  else if c = 47 then some 63
  else none

/-- CPython's `binascii.a2b_base64(s, strict_mode=True)` main loop, which is
what `base64.b64decode(s, validate=True)` calls (Python ≥ 3.11).
State: `quadPos` (position inside the current 4-char quad), `leftchar`
(bits left over from the previous char), `padStarted` (a pad byte `=` has
been seen), `pads` (pads counted while `quadPos ≥ 2`).  Returns `none` for
every input the C code rejects with `binascii.Error`: a byte outside the
alphabet, a data byte after padding (discontinuous padding), excess data
after a completed pad sequence, and a final `quadPos` of 1 (data length
1 mod 4) or 2/3 without enough pads (incorrect padding). -/
def a2bBase64 (quadPos leftchar : Nat) (padStarted : Bool) (pads : Nat) :
    List Nat → Option (List Nat)
  | [] => if quadPos = 0 then some [] else none
  | c :: rest =>
    if c = 61 then
      -- pad byte '='
      if 2 ≤ quadPos then
        if 4 ≤ quadPos + (pads + 1) then
          -- pad sequence complete: done, unless data remains (excess data)
          if rest = [] then some [] else none
        else a2bBase64 quadPos leftchar true (pads + 1) rest
      else a2bBase64 quadPos leftchar true pads rest
    else
      match b64val c with
      | none => none        -- only base64 data is allowed (strict mode)
      | some v =>
        if padStarted then none   -- discontinuous padding not allowed
        else
          match quadPos with
          | 0 => a2bBase64 1 v false 0 rest
          | 1 => (a2bBase64 2 (v % 16) false 0 rest).map
                   (fun tl => (leftchar * 4 + v / 16) :: tl)
          | 2 => (a2bBase64 3 (v % 4) false 0 rest).map
                   (fun tl => (leftchar * 16 + v / 4) :: tl)
          | _ => (a2bBase64 0 0 false 0 rest).map
                   (fun tl => (leftchar * 64 + v) :: tl)

/-- `base64.b64decode(s, validate=True)` as called at `app.py:76` and
`frigate-viewer/app.py:121`: strict-mode base64 decoding; a leading pad
byte is rejected before the main loop. -/
def b64decode (s : List Nat) : Option (List Nat) :=
  match s with
  | 61 :: _ => none   -- leading padding not allowed
  | _ => a2bBase64 0 0 false 0 s

-- sanity checks against the observed behaviour of CPython 3.11
example : b64decode [] = some [] := by decide
example : b64decode [47, 57, 106, 47] = some [255, 216, 255] := by decide
example : b64decode [47, 57, 106, 47, 61, 61] = some [255, 216, 255] := by decide
example : b64decode [65, 65, 61, 61] = some [0] := by decide
example : b64decode [65, 65, 65, 61] = some [0, 0] := by decide
example : b64decode [65, 65, 61] = none := by decide
example : b64decode [65, 65, 61, 61, 61] = none := by decide
example : b64decode [61, 61] = none := by decide
example : b64decode [65, 61, 61, 61] = none := by decide
example : b64decode [65, 66, 61, 67] = none := by decide
example : b64decode [47, 57, 32, 106, 47] = none := by decide

/-- One byte of strict UTF-8 decoding.  The state is `none` after an
error, otherwise `some (out, k, acc, lo, hi)`: `out` the code points decoded
so far (reversed), `k` the number of continuation bytes still expected,
`acc` the partial code point, and `lo`/`hi` the admissible range of the next
byte (this range is how CPython rejects overlong encodings, surrogates and
code points above 0x10FFFF). -/
def utf8Step (st : Option (List Nat × Nat × Nat × Nat × Nat)) (b : Nat) :
    Option (List Nat × Nat × Nat × Nat × Nat) :=
  match st with
  | none => none
  | some (out, 0, _, _, _) =>
    if b < 128 then some (b :: out, 0, 0, 0, 0)
    else if 194 ≤ b ∧ b ≤ 223 then some (out, 1, b - 192, 128, 191)
    else if 224 ≤ b ∧ b ≤ 239 then
      some (out, 2, b - 224, if b = 224 then 160 else 128,
            if b = 237 then 159 else 191)
    else if 240 ≤ b ∧ b ≤ 244 then
      some (out, 3, b - 240, if b = 240 then 144 else 128,
            if b = 244 then 143 else 191)
    else none
  | some (out, k + 1, acc, lo, hi) =>
    if lo ≤ b ∧ b ≤ hi then
      if k = 0 then some ((acc * 64 + (b - 128)) :: out, 0, 0, 0, 0)
      else some (out, k, acc * 64 + (b - 128), 128, 191)
    else none

/-- Strict UTF-8 decoding of a byte list into the list of code points, as
performed by `candidate_bytes.decode("utf-8")` at
`frigate-viewer/app.py:85`: rejects continuation-byte errors, truncated
sequences, overlong encodings, surrogates and code points above 0x10FFFF
(returns `none` exactly when Python raises `UnicodeDecodeError`). -/
def utf8Decode (l : List Nat) : Option (List Nat) :=
  match l.foldl utf8Step (some ([], 0, 0, 0, 0)) with
  | some (out, 0, _, _, _) => some out.reverse
  | _ => none

example : utf8Decode [104, 116, 116, 112] = some [104, 116, 116, 112] := by decide
example : utf8Decode [255, 216, 255] = none := by decide
example : utf8Decode [195, 191] = some [255] := by decide
example : utf8Decode [195] = none := by decide

/-- An MQTT payload as seen by `store_image_if_jpeg` (`app.py:53`): the
function is documented to accept `bytes` or `str` (with `None` reaching
only the leading falsiness check).  A `str` payload is represented by its
UTF-8 encoding, which is what `candidate_bytes.encode("utf-8")` at
`app.py:73` produces. -/
inductive Payload where
  | bytes (data : List Nat)
  | str (data : List Nat)
  | pynone
deriving DecidableEq

/-- The byte view of a payload: the raw bytes, the UTF-8 encoding of a
string, and the empty list for `None` (which, being falsy, only ever meets
the `if not candidate_bytes` check). -/
def Payload.data : Payload → List Nat
  | .bytes d => d
  | .str d => d
  | .pynone => []

/-- Whether the payload is a `bytes` object: the slice comparison
`candidate_bytes[:3] == b"\xff\xd8\xff"` can only succeed for `bytes`
(a `str` slice never equals a `bytes` literal in Python 3). -/
def Payload.isBytes : Payload → Bool
  | .bytes _ => true
  | _ => false

/-- A payload that represents a well-formed Python value: a `str` payload's
byte view must be the UTF-8 encoding of an actual string. -/
def PayloadWF : Payload → Prop
  | .str d => (utf8Decode d).isSome = true
  | _ => True

/-- `store_image_if_jpeg` (`app.py:53-87`), single-topic variant, reduced to
its classification result: `some stored` when the function stores `stored`
and returns `True`, `none` when it returns `False`.  Branch order as in the
source: falsiness check, raw JPEG-marker check (bytes only), strict base64
decode followed by the marker check on the decoded bytes (the
`try`/`except` around the decode maps a decode error to fall-through). -/
def store_image_if_jpeg (p : Payload) : Option (List Nat) :=
  if p.data = [] then none
  else if p.isBytes = true ∧ p.data.take 3 = jpegMarker then some p.data
  else
    match b64decode p.data with
    | some decoded => if decoded.take 3 = jpegMarker then some decoded else none
    | none => none

/-- The classifier contract as the spec words it (§4.1, §8): first match
wins between the raw 3-byte marker check and the strict-base64-then-marker
check; everything else is "not an image". -/
def classify_spec (p : Payload) : Option (List Nat) :=
  if p.data.take 3 = jpegMarker then some p.data
  else
    match b64decode p.data with
    | some decoded => if decoded.take 3 = jpegMarker then some decoded else none
    | none => none

/-- Code points Python's `str.strip()` removes (the Unicode whitespace set
used by CPython's `unicode_whitespace` table). -/
def pySpace (c : Nat) : Bool :=
  decide (c ∈ [9, 10, 11, 12, 13, 28, 29, 30, 31, 32, 133, 160, 5760] ∨
    (8192 ≤ c ∧ c ≤ 8202) ∨ c ∈ [8232, 8233, 8239, 8287, 12288])

/-- `s.strip()` on a list of code points: drop leading and trailing
whitespace. -/
def pyStrip (cs : List Nat) : List Nat :=
  ((cs.dropWhile pySpace).reverse.dropWhile pySpace).reverse

/-- One code point of `str.lower()`.  Only the ASCII range is mapped; this
is sufficient for the `startswith("http")` test at
`frigate-viewer/app.py:91`, since no non-ASCII code point lowercases to an
ASCII `h`, `t` or `p`. -/
def pyLowerChar (c : Nat) : Nat :=
  if 65 ≤ c ∧ c ≤ 90 then c + 32 else c

/-- The URL-shape test `as_str.strip().lower().startswith("http")` at
`frigate-viewer/app.py:91`, on the code points of `as_str`
(`"http"` = code points 104, 116, 116, 112). -/
def urlShaped (cs : List Nat) : Bool :=
  decide (((pyStrip cs).map pyLowerChar).take 4 = [104, 116, 116, 112])

example : urlShaped [32, 72, 84, 84, 80, 58, 47, 47] = true := by decide
example : urlShaped [104, 116, 116] = false := by decide

/-- A logical key of the multi-topic store: `(cam, obj)`. -/
abbrev Key := String × String

/-- One stored entry of `_latest_images`: `(image_bytes, timestamp)`
(`frigate-viewer/app.py:66`). -/
structure Record where
  img : List Nat
  ts : ℚ
deriving DecidableEq

/-- The `_latest_images` dict in insertion order (Python 3.7+ dicts preserve
it, and `gallery()` iterates in it). -/
abbrev Store := List (Key × Record)

/-- Python dict assignment `_latest_images[(cam, obj)] = (img, ts)`: an
existing key keeps its position and gets the new value; a new key is
appended. -/
def dictSet (s : Store) (k : Key) (r : Record) : Store :=
  match s with
  | [] => [(k, r)]
  | (k', r') :: rest => if k' = k then (k, r) :: rest else (k', r') :: dictSet rest k r

/-- `notify_sse_clients` (`frigate-viewer/app.py:444-450`): each connected
client's queue (modelled by its number of pending signals) receives one
more signal via `put_nowait`; the queues are unbounded, so the
`except` around `put_nowait` never fires. -/
def notify_sse_clients (clients : List Nat) : List Nat :=
  clients.map (fun q => q + 1)

/-- Registration part of `sse_events.gen` (`frigate-viewer/app.py:424-426`):
a fresh, empty queue is appended to `_sse_clients`. -/
def sse_subscribe (clients : List Nat) : List Nat :=
  clients ++ [0]

/-- The SSE event string yielded by the generator. -/
def sse_event : String := "data: update\n\n"

/-- Output of the `sse_events` generator (`frigate-viewer/app.py:423-439`)
after it has received `n` signals from its queue: one event is yielded
immediately after registration, then one per received signal. -/
def sse_gen_output (n : Nat) : List String :=
  sse_event :: List.replicate n sse_event

/-- The Python exceptions the embedded code can raise. -/
inductive PyExc where
  | nameError (n : String)
deriving DecidableEq

deriving instance DecidableEq for Except

/-- Raw-marker and base64 tail of `store_image_for_topic`
(`frigate-viewer/app.py:105-137`), reached when the payload is not
URL-shaped: store on a raw or base64-decoded JPEG and notify, otherwise
leave the state alone and return `False`. -/
def storeRawOrB64 (s : Store) (clients : List Nat) (cam obj : String)
    (payload : List Nat) (t : ℚ) : Store × List Nat × Bool :=
  if payload.take 3 = jpegMarker then
    (dictSet s (cam, obj) ⟨payload, t⟩, notify_sse_clients clients, true)
  else
    match b64decode payload with
    | some decoded =>
      if decoded.take 3 = jpegMarker then
        (dictSet s (cam, obj) ⟨decoded, t⟩, notify_sse_clients clients, true)
      else (s, clients, false)
    | none => (s, clients, false)

/-- `store_image_for_topic` (`frigate-viewer/app.py:74-137`) as a state
transformer on `(_latest_images, _sse_clients)`; the `Bool` is the Python
return value.  The URL branch resolves the global name
`fetch_jpeg_from_url`, which is defined nowhere in the repository (the
`requests` import at line 25 is unused), so reaching it raises `NameError`
before any fetch, store access or notification. -/
def store_image_for_topic (s : Store) (clients : List Nat) (cam obj : String)
    (payload : List Nat) (t : ℚ) : Except PyExc (Store × List Nat × Bool) :=
  if payload = [] then .ok (s, clients, false)
  else
    match utf8Decode payload with
    | some cs =>
      if cs ≠ [] ∧ urlShaped cs = true then
        .error (.nameError "fetch_jpeg_from_url")
      else .ok (storeRawOrB64 s clients cam obj payload t)
    | none => .ok (storeRawOrB64 s clients cam obj payload t)

/-- Topic parsing in the multi-topic `on_message`
(`frigate-viewer/app.py:154-168`): `msg.topic.split("/")` must give exactly
four parts with `parts[0] == "frigate"` and `parts[3] == "snapshot"`;
`(parts[1], parts[2])` is the key, every other topic is ignored. -/
def splitSlash : List Char → List (List Char)
  | [] => [[]]
  | c :: rest =>
    match splitSlash rest with
    | r :: rs => if c = '/' then [] :: r :: rs else (c :: r) :: rs
    | [] => [[]]

/-- Python `topic.split("/")` on a string (single-character separator). -/
def pySplitSlash (s : String) : List String :=
  (splitSlash s.data).map List.asString

example : pySplitSlash "frigate/cam1/person/snapshot" =
    ["frigate", "cam1", "person", "snapshot"] := by decide
example : pySplitSlash "" = [""] := by decide
example : pySplitSlash "a//b" = ["a", "", "b"] := by decide

/-- The routing decision of the multi-topic `on_message`: `some (cam, obj)`
when the topic is accepted, `none` when the message is dropped. -/
def route_topic (topic : String) : Option (String × String) :=
  match pySplitSlash topic with
  | [p0, cam, obj, p3] =>
    if p0 = "frigate" ∧ p3 = "snapshot" then some (cam, obj) else none
  | _ => none

/-- The multi-topic `on_message` (`frigate-viewer/app.py:152-168`) as a
state transformer: route, then hand the payload to
`store_image_for_topic`; rejected topics are dropped without touching the
state (`False` stands for "no update"). -/
def on_message (s : Store) (clients : List Nat) (topic : String)
    (payload : List Nat) (t : ℚ) : Except PyExc (Store × List Nat × Bool) :=
  match route_topic topic with
  | some (cam, obj) => store_image_for_topic s clients cam obj payload t
  | none => .ok (s, clients, false)

/-- Single-topic module state: `_last_image` and `_last_image_ts`
(`app.py:48-49`). -/
structure SingleState where
  last_image : Option (List Nat)
  last_image_ts : ℚ
deriving DecidableEq

/-- `store_image_if_jpeg` as a state transformer on the single-topic module
state (`app.py:53-87`): when the classification succeeds the stored bytes
and the call-time timestamp replace the globals, otherwise nothing
changes; the `Bool` is the Python return value. -/
def store_image_if_jpeg_state (σ : SingleState) (p : Payload) (t : ℚ) :
    SingleState × Bool :=
  match store_image_if_jpeg p with
  | some stored => (⟨some stored, t⟩, true)
  | none => (σ, false)

/-- Combined module state of the multi-topic variant: `_latest_images` and
`_sse_clients` (`frigate-viewer/app.py:66-70`). -/
structure SysState where
  store : Store
  clients : List Nat
deriving DecidableEq

/-- Module state at startup: empty dict, no SSE clients. -/
def initState : SysState := ⟨[], []⟩

/-- The operations that can touch the multi-topic module state: an inbound
MQTT message (with its processing time), the read-only HTTP endpoints, and
an SSE client connecting. -/
inductive Op where
  | msg (topic : String) (payload : List Nat) (t : ℚ)
  | httpImage (cam obj : String)
  | httpGallery
  | httpStatus
  | sseConnect

/-- One step of the multi-topic system.  A message is processed by
`on_message`; if processing raises (the undefined `fetch_jpeg_from_url`),
the exception propagates out of the callback before any store or notifier
mutation, so the module state is unchanged.  The HTTP read endpoints never
write; an SSE connect registers a fresh empty queue. -/
def step (σ : SysState) (op : Op) : SysState :=
  match op with
  | .msg topic payload t =>
    match on_message σ.store σ.clients topic payload t with
    | .ok (s', c', _) => ⟨s', c'⟩
    | .error _ => σ
  | .httpImage _ _ => σ
  | .httpGallery => σ
  | .httpStatus => σ
  | .sseConnect => ⟨σ.store, sse_subscribe σ.clients⟩

/-- Python `int(x)` on a rational value: truncation toward zero
(`int(ts)` at `frigate-viewer/app.py:396/400`). -/
def pyInt (q : ℚ) : ℤ :=
  if q < 0 then ⌈q⌉ else ⌊q⌋

/-- The `latest` object built by `/gallery`
(`frigate-viewer/app.py:386-401`): camera, object, and the truncated
timestamp `int(ts)`. -/
structure LatestInfo where
  cam : String
  obj : String
  ts : ℤ
deriving DecidableEq

/-- The `latest` computation of the `gallery` endpoint
(`frigate-viewer/app.py:390-400`): iterate the dict in insertion order,
replacing `latest` whenever the entry's raw timestamp `ts` is strictly
greater than the *truncated* timestamp stored in `latest["ts"]`. -/
def gallery_step (latest : Option LatestInfo) (kr : Key × Record) :
    Option LatestInfo :=
  match latest with
  | none => some ⟨kr.1.1, kr.1.2, pyInt kr.2.ts⟩
  | some l =>
    if kr.2.ts > (l.ts : ℚ) then some ⟨kr.1.1, kr.1.2, pyInt kr.2.ts⟩
    else some l

/-- The fold that the loop performs over the dict entries. -/
def gallery_latest (s : Store) : Option LatestInfo :=
  s.foldl gallery_step none

/-- An HTTP response of the `/image/<cam>/<obj>.jpg` endpoint, keeping the
fields the claims talk about: status, body, and the two headers. -/
structure ImageResponse where
  status : Nat
  body : List Nat
  cacheControl : Option String
  xImageTimestamp : Option ℚ
deriving DecidableEq

/-- The `Cache-Control` value sent with every image response. -/
def cacheControlValue : String := "no-cache, no-store, must-revalidate"

/-- The `image` endpoint of the multi-topic variant
(`frigate-viewer/app.py:368-383`): 204 with empty body when the key has no
entry, otherwise 200 with exactly the stored bytes, the cache-defeating
`Cache-Control` header and the `X-Image-Timestamp` header carrying the
record's capture time. -/
def image_endpoint (s : Store) (cam obj : String) : ImageResponse :=
  match s.lookup (cam, obj) with
  | none => ⟨204, [], none, none⟩
  | some r => ⟨200, r.img, some cacheControlValue, some r.ts⟩

/-! ### Helper lemmas -/

theorem lookup_dictSet (s : Store) (k k' : Key) (r : Record) :
    (dictSet s k r).lookup k' = if k' = k then some r else s.lookup k' := by
  induction s with
  | nil =>
    by_cases h : k' = k
    · subst h; simp [dictSet, List.lookup]
    · simp [dictSet, List.lookup, beq_eq_false_iff_ne.mpr h, h]
  | cons hd tl ih =>
    obtain ⟨k₀, r₀⟩ := hd
    by_cases h0 : k₀ = k
    · subst h0
      by_cases h : k' = k₀
      · subst h; simp [dictSet, List.lookup]
      · simp [dictSet, List.lookup, beq_eq_false_iff_ne.mpr h, h]
    · by_cases h : k' = k₀
      · subst h
        have hne : ¬k' = k := fun hk => h0 (hk ▸ rfl)
        simp [dictSet, List.lookup, h0, hne]
      · simp [dictSet, List.lookup, beq_eq_false_iff_ne.mpr h, h0, h, ih]

theorem dictSet_idem (s : Store) (k : Key) (r : Record) :
    dictSet (dictSet s k r) k r = dictSet s k r := by
  induction s with
  | nil => simp [dictSet]
  | cons hd tl ih =>
    obtain ⟨k₀, r₀⟩ := hd
    by_cases h0 : k₀ = k
    · simp [dictSet, h0]
    · simp [dictSet, h0, ih]

theorem foldl_utf8Step_none (t : List Nat) : t.foldl utf8Step none = none := by
  induction t with
  | nil => rfl
  | cons b t ih => simpa [utf8Step] using ih

theorem utf8Decode_ff (t : List Nat) : utf8Decode (255 :: t) = none := by
  unfold utf8Decode
  rw [List.foldl_cons, show utf8Step (some ([], 0, 0, 0, 0)) 255 = none from by decide,
    foldl_utf8Step_none]

/-- A byte list whose first three bytes are the JPEG marker starts with a
byte (0xFF) that no UTF-8 encoding can start with. -/
theorem take_marker_head {d : List Nat} (h : d.take 3 = jpegMarker) :
    ∃ t, d = 255 :: t := by
  match d, h with
  | a :: rest, h =>
    refine ⟨rest, ?_⟩
    simp [jpegMarker, List.take] at h
    simp [h.1]

theorem le_pyInt {k : ℤ} {t : ℚ} (h : (k : ℚ) < t) : k ≤ pyInt t := by
  unfold pyInt
  split
  · have h1 : (k : ℚ) < (⌈t⌉ : ℚ) := lt_of_lt_of_le h (Int.le_ceil t)
    exact_mod_cast le_of_lt (by exact_mod_cast h1)
  · exact Int.le_floor.mpr (le_of_lt h)

theorem pyInt_le {k : ℤ} {t : ℚ} (h : t ≤ (k : ℚ)) : pyInt t ≤ k := by
  unfold pyInt
  split
  · exact Int.ceil_le.mpr h
  · have h1 : (⌊t⌋ : ℚ) ≤ (k : ℚ) := le_trans (Int.floor_le t) h
    exact_mod_cast h1

example : utf8Decode [237, 160, 128] = none := by decide
example : utf8Decode [224, 128, 128] = none := by decide
example : utf8Decode [244, 144, 128, 128] = none := by decide
example : utf8Decode [240, 159, 146, 169] = some [128169] := by decide

/-! ### Claims -/

/-- C1: for every payload `b` (bytes or string), classification returns a
JPEG result if and only if `b`'s leading 3 bytes are 0xFF 0xD8 0xFF, or `b`
is valid strict base64 whose decoded leading 3 bytes are that marker,
checked in that order with first match winning; every other payload is
classified "not an image" (`classify` returns `False`).  Stated as: on
every well-formed payload, `store_image_if_jpeg` computes exactly the
spec's classifier. -/
theorem classify_eq_spec (p : Payload) (hp : PayloadWF p) :
    store_image_if_jpeg p = classify_spec p := by
  cases p with
  | bytes d =>
    by_cases hd : d = []
    · subst hd; decide
    · simp [store_image_if_jpeg, classify_spec, Payload.data, Payload.isBytes, hd]
  | str d =>
    have hp' : (utf8Decode d).isSome = true := hp
    by_cases hd : d = []
    · subst hd; decide
    · have hm : ¬ d.take 3 = jpegMarker := by
        intro h
        obtain ⟨t, ht⟩ := take_marker_head h
        rw [ht, utf8Decode_ff] at hp'
        simp at hp'
      simp [store_image_if_jpeg, classify_spec, Payload.data, Payload.isBytes, hd, hm]
  | pynone => decide

/-- Witness for C1: a concrete raw-JPEG bytes payload, a concrete base64
payload of a JPEG (`b"/9j/AA=="`), and a concrete base64 payload of
non-JPEG data (`b"AAAA"`), evaluated through the theorem. -/
theorem classify_eq_spec_witness :
    PayloadWF (.bytes [255, 216, 255, 0]) ∧
    store_image_if_jpeg (.bytes [255, 216, 255, 0]) =
      classify_spec (.bytes [255, 216, 255, 0]) ∧
    store_image_if_jpeg (.bytes [47, 57, 106, 47, 65, 65, 61, 61]) =
      classify_spec (.bytes [47, 57, 106, 47, 65, 65, 61, 61]) ∧
    classify_spec (.bytes [47, 57, 106, 47, 65, 65, 61, 61]) =
      some [255, 216, 255, 0] ∧
    classify_spec (.bytes [65, 65, 65, 65]) = none :=
  ⟨trivial, classify_eq_spec (.bytes [255, 216, 255, 0]) trivial,
   classify_eq_spec (.bytes [47, 57, 106, 47, 65, 65, 61, 61]) trivial,
   by decide, by decide⟩

/-- The bytes of the MQTT payload `b"http://example.com/img.jpg"`. -/
def httpPayloadBytes : List Nat := [104, 116, 116, 112, 58, 47, 47, 101, 120, 97, 109, 112, 108, 101, 46, 99, 111, 109, 47, 105, 109, 103, 46, 106, 112, 103]

/-- The bytes of the MQTT payload `b"https://example.com/img.jpg"`. -/
def httpsPayloadBytes : List Nat := [104, 116, 116, 112, 115, 58, 47, 47, 101, 120, 97, 109, 112, 108, 101, 46, 99, 111, 109, 47, 105, 109, 103, 46, 106, 112, 103]

/-- C2: the claim states that processing a message never raises an
exception out of the per-message handler, in particular for payloads whose
trimmed text starts with "http".  The code violates this: the URL branch of
`store_image_for_topic` calls `fetch_jpeg_from_url`, a name defined nowhere
in the repository, so a URL-shaped payload on a matching topic raises
`NameError` out of `on_message` before any fetch is attempted.  This
theorem evaluates the handler at the failing input. -/
theorem on_message_http_raises :
    on_message [] [] "frigate/cam1/person/snapshot" httpPayloadBytes 0 =
      .error (.nameError "fetch_jpeg_from_url") := by
  decide

/-- C4: the claim states that a URL-shaped payload triggers a fetch whose
failure makes the handler return `False` with no store mutation and no
notification.  The code instead raises `NameError` (the fetch helper
`fetch_jpeg_from_url` is undefined; the `requests` import is unused), so no
fetch is ever attempted and the handler does not return.  This theorem
evaluates the code at the failing input: the call raises, and the module
state (store and notifier) is left untouched by the aborted callback. -/
theorem store_image_url_raises :
    store_image_for_topic [] [] "cam1" "person" httpsPayloadBytes 0 =
      .error (.nameError "fetch_jpeg_from_url") ∧
    step initState (.msg "frigate/cam1/person/snapshot" httpsPayloadBytes 0) =
      initState := by
  refine ⟨by decide, ?_⟩
  decide

/-- C5: routing accepts a topic and yields `(cam, obj)` iff the topic
splits on `/` into exactly four segments, the first being `frigate` and the
fourth `snapshot`, with `cam` and `obj` the middle segments; any other
topic is rejected and the message is dropped without touching the module
state.  `frigate/cam1/person/snapshot` routes to `(cam1, person)`;
`frigate/cam1/person/clip` and `frigate/cam1/snapshot` are rejected. -/
theorem route_topic_spec :
    (∀ (t cam obj : String),
      route_topic t = some (cam, obj) ↔
        pySplitSlash t = ["frigate", cam, obj, "snapshot"]) ∧
    route_topic "frigate/cam1/person/snapshot" = some ("cam1", "person") ∧
    route_topic "frigate/cam1/person/clip" = none ∧
    route_topic "frigate/cam1/snapshot" = none ∧
    (∀ (σ : SysState) (t : String) (payload : List Nat) (ts : ℚ),
      route_topic t = none → step σ (.msg t payload ts) = σ) := by
  refine ⟨?_, by decide, by decide, by decide, ?_⟩
  · intro t cam obj
    constructor
    · intro h
      unfold route_topic at h
      split at h
      · rename_i p0 cam' obj' p3 heq
        split at h
        · rename_i hc
          injection h with h'
          obtain ⟨rfl, rfl⟩ := Prod.mk.injEq cam' obj' cam obj ▸ h'
          rw [heq, hc.1, hc.2]
        · exact absurd h (by simp)
      · exact absurd h (by simp)
    · intro h
      unfold route_topic
      rw [h]
      simp
  · intro σ t payload ts h
    show (match on_message σ.store σ.clients t payload ts with
      | .ok (s', c', _) => SysState.mk s' c'
      | .error _ => σ) = σ
    unfold on_message
    rw [h]

/-- Witness for C5: the wrong-suffix topic is rejected and leaves the
module state untouched. -/
theorem route_topic_spec_witness :
    route_topic "frigate/cam1/person/clip" = none ∧
    step initState (.msg "frigate/cam1/person/clip" [255, 216, 255] 0) =
      initState :=
  ⟨by decide,
   route_topic_spec.2.2.2.2 initState "frigate/cam1/person/clip"
     [255, 216, 255] 0 (by decide)⟩

/-- C6: a change-notification subscription emits exactly one event
immediately upon establishment (the generator's first yield, before any
queue receive); after an upsert's broadcast, every listener registered at
broadcast time has one more signal pending on its queue (so at least one);
and a listener that subscribes after the broadcast starts with an empty
queue, receiving nothing retroactively beyond that immediate first
event. -/
theorem sse_notifier_spec :
    sse_gen_output 0 = [sse_event] ∧
    (∀ n : Nat, (sse_gen_output n).head? = some sse_event ∧
      (sse_gen_output n).length = n + 1) ∧
    (∀ (clients : List Nat) (i : Nat),
      (notify_sse_clients clients)[i]? = clients[i]?.map (fun q => q + 1)) ∧
    (∀ clients : List Nat,
      (notify_sse_clients (sse_subscribe clients)).getLast? = some 1) ∧
    (∀ clients : List Nat,
      (sse_subscribe (notify_sse_clients clients)).getLast? = some 0) := by
  refine ⟨rfl, fun n => ⟨rfl, by simp [sse_gen_output]⟩, ?_, ?_, ?_⟩
  · intro clients i
    simp [notify_sse_clients, List.getElem?_map]
  · intro clients
    simp [sse_subscribe, notify_sse_clients, List.map_append, List.getLast?_concat]
  · intro clients
    simp [sse_subscribe, List.getLast?_concat]

/-- C8: applying the same upsert `(k, b, t)` N ≥ 1 times to any store state
yields the same store state as applying it once. -/
theorem upsert_idempotent (s : Store) (k : Key) (b : List Nat) (t : ℚ)
    (N : Nat) (hN : 1 ≤ N) :
    (fun σ => dictSet σ k ⟨b, t⟩)^[N] s = dictSet s k ⟨b, t⟩ := by
  induction N with
  | zero => exact absurd hN (by omega)
  | succ n ih =>
    rcases Nat.eq_zero_or_pos n with h0 | hpos
    · subst h0
      simp
    · rw [Function.iterate_succ_apply', ih hpos]
      exact dictSet_idem s k ⟨b, t⟩

/-- Witness for C8: three identical upserts on the empty store equal
one. -/
theorem upsert_idempotent_witness :
    1 ≤ 3 ∧
    (fun σ => dictSet σ ("cam1", "person") ⟨[255, 216, 255], 1⟩)^[3] [] =
      dictSet [] ("cam1", "person") ⟨[255, 216, 255], 1⟩ :=
  ⟨by decide,
   upsert_idempotent [] ("cam1", "person") [255, 216, 255] 1 3 (by decide)⟩

/-- The `latest` object originates from an entry of the store: its `cam`
and `obj` are that entry's key and its `ts` is the truncation of that
entry's capture time. -/
def FromStore (r : LatestInfo) (s : Store) : Prop :=
  ∃ kr ∈ s, r.cam = kr.1.1 ∧ r.obj = kr.1.2 ∧ r.ts = pyInt kr.2.ts

theorem gallery_fold_some (l : Store) (r0 : LatestInfo) :
    ∃ r, List.foldl gallery_step (some r0) l = some r ∧
      (r = r0 ∨ FromStore r l) ∧ r0.ts ≤ r.ts ∧
      ∀ kr ∈ l, pyInt kr.2.ts ≤ r.ts := by
  induction l generalizing r0 with
  | nil => exact ⟨r0, rfl, Or.inl rfl, le_refl _, by simp⟩
  | cons kr l ih =>
    by_cases hgt : kr.2.ts > (r0.ts : ℚ)
    · obtain ⟨r, hfold, hprov, hle, hbound⟩ := ih ⟨kr.1.1, kr.1.2, pyInt kr.2.ts⟩
      refine ⟨r, ?_, ?_, ?_, ?_⟩
      · simpa [gallery_step, hgt] using hfold
      · rcases hprov with rfl | ⟨kr', hmem, hp⟩
        · exact Or.inr ⟨kr, List.mem_cons_self kr l, rfl, rfl, rfl⟩
        · exact Or.inr ⟨kr', List.mem_cons_of_mem kr hmem, hp⟩
      · exact le_trans (le_pyInt hgt) hle
      · intro kr' hmem
        rcases List.mem_cons.mp hmem with rfl | hmem'
        · exact le_trans (le_of_eq rfl) hle
        · exact hbound kr' hmem'
    · obtain ⟨r, hfold, hprov, hle, hbound⟩ := ih r0
      refine ⟨r, ?_, ?_, hle, ?_⟩
      · simpa [gallery_step, hgt] using hfold
      · rcases hprov with rfl | ⟨kr', hmem, hp⟩
        · exact Or.inl rfl
        · exact Or.inr ⟨kr', List.mem_cons_of_mem kr hmem, hp⟩
      · intro kr' hmem
        rcases List.mem_cons.mp hmem with rfl | hmem'
        · exact le_trans (pyInt_le (le_of_not_lt hgt)) hle
        · exact hbound kr' hmem'

/-- A store exhibiting the float-versus-truncated-int comparison in the
`gallery` loop: the first entry was captured at 5.5 seconds, the second at
5.2. -/
def demoStore : Store :=
  [(("cam1", "obj1"), ⟨[255, 216, 255], 11 / 2⟩),
   (("cam2", "obj2"), ⟨[255, 216, 255, 0], 26 / 5⟩)]

/-- Counterexample to C3 as stated: over `demoStore`, the `gallery` loop
compares the second entry's raw timestamp 5.2 against the *truncated*
timestamp `int(5.5) = 5` of the first, so it selects the `(cam2, obj2)`
entry — whose capture time 5.2 is strictly below the store's maximum
capture time 5.5.  The returned entry's `capturedAt` is therefore not the
maximum over all stored entries. -/
theorem gallery_latest_not_max :
    gallery_latest demoStore = some ⟨"cam2", "obj2", 5⟩ ∧
    demoStore.map (fun kr => (kr.1, kr.2.ts)) =
      [(("cam1", "obj1"), 11 / 2), (("cam2", "obj2"), 26 / 5)] ∧
    (26 / 5 : ℚ) < 11 / 2 := by
  have h1 : pyInt (11 / 2) = 5 := by
    norm_num [pyInt]
  have h2 : pyInt (26 / 5) = 5 := by
    norm_num [pyInt]
  refine ⟨?_, rfl, by norm_num⟩
  show List.foldl gallery_step none demoStore = some ⟨"cam2", "obj2", 5⟩
  rw [demoStore, List.foldl_cons, List.foldl_cons, List.foldl_nil]
  show gallery_step (some ⟨"cam1", "obj1", pyInt (11 / 2)⟩) _ = _
  rw [gallery_step, h1]
  norm_num [h2]

/-- C3 (amended): `latest()` over an empty store returns the
explicit-absent result, and over a non-empty store returns an entry whose
capturedAt *truncated to whole seconds* (`int(ts)`, the value the endpoint
reports) is the maximum of the truncated capture times over all stored
entries; which entry wins among those within the same whole second is
determined by iteration order and the raw-versus-truncated comparison,
deterministically within a process run. -/
theorem gallery_latest_spec :
    gallery_latest ([] : Store) = none ∧
    ∀ s : Store, s ≠ [] →
      ∃ r, gallery_latest s = some r ∧ FromStore r s ∧
        ∀ kr ∈ s, pyInt kr.2.ts ≤ r.ts := by
  refine ⟨rfl, ?_⟩
  intro s hs
  match s, hs with
  | kr :: l, _ =>
    obtain ⟨r, hfold, hprov, _, hbound⟩ :=
      gallery_fold_some l ⟨kr.1.1, kr.1.2, pyInt kr.2.ts⟩
    refine ⟨r, ?_, ?_, ?_⟩
    · simpa [gallery_latest, gallery_step] using hfold
    · rcases hprov with rfl | ⟨kr', hmem, hp⟩
      · exact ⟨kr, List.mem_cons_self kr l, rfl, rfl, rfl⟩
      · exact ⟨kr', List.mem_cons_of_mem kr hmem, hp⟩
    · intro kr' hmem
      rcases List.mem_cons.mp hmem with rfl | hmem'
      · rcases hprov with rfl | _
        · exact le_refl _
        · obtain ⟨r', hfold', hprov', hle', _⟩ :=
            gallery_fold_some l ⟨kr'.1.1, kr'.1.2, pyInt kr'.2.ts⟩
          rw [hfold] at hfold'
          cases hfold'
          exact hle'
      · exact hbound kr' hmem'

/-- Witness for C3: the amended statement applied to the concrete
`demoStore`. -/
theorem gallery_latest_spec_witness :
    demoStore ≠ [] ∧
    ∃ r, gallery_latest demoStore = some r ∧ FromStore r demoStore ∧
      ∀ kr ∈ demoStore, pyInt kr.2.ts ≤ r.ts :=
  ⟨by simp [demoStore], gallery_latest_spec.2 demoStore (by simp [demoStore])⟩

theorem storeRawOrB64_result (s : Store) (clients : List Nat)
    (cam obj : String) (payload : List Nat) (t : ℚ) :
    storeRawOrB64 s clients cam obj payload t = (s, clients, false) ∨
    ∃ img, storeRawOrB64 s clients cam obj payload t =
      (dictSet s (cam, obj) ⟨img, t⟩, notify_sse_clients clients, true) := by
  unfold storeRawOrB64
  split
  · exact Or.inr ⟨payload, rfl⟩
  · split
    · split
      · exact Or.inr ⟨_, rfl⟩
      · exact Or.inl rfl
    · exact Or.inl rfl

theorem on_message_result (s : Store) (clients : List Nat) (topic : String)
    (payload : List Nat) (t : ℚ) (res : Store × List Nat × Bool)
    (h : on_message s clients topic payload t = .ok res) :
    res = (s, clients, false) ∨
    ∃ k img, res =
      (dictSet s k ⟨img, t⟩, notify_sse_clients clients, true) := by
  unfold on_message at h
  split at h
  · rename_i cam obj heq
    unfold store_image_for_topic at h
    split at h
    · injection h with h'
      exact Or.inl h'.symm
    · split at h
      · split at h
        · exact absurd h (by simp)
        · injection h with h'
          rcases storeRawOrB64_result s clients cam obj payload t with h2 | ⟨img, h2⟩
          · exact Or.inl (h' ▸ h2)
          · exact Or.inr ⟨(cam, obj), img, h' ▸ h2⟩
      · injection h with h'
        rcases storeRawOrB64_result s clients cam obj payload t with h2 | ⟨img, h2⟩
        · exact Or.inl (h' ▸ h2)
        · exact Or.inr ⟨(cam, obj), img, h' ▸ h2⟩
  · injection h with h'
    exact Or.inl h'.symm

theorem step_keys_mono (σ : SysState) (op : Op) (k : Key)
    (h : (σ.store.lookup k).isSome = true) :
    ((step σ op).store.lookup k).isSome = true := by
  cases op with
  | msg topic payload t =>
    show ((match on_message σ.store σ.clients topic payload t with
      | .ok (s', c', _) => SysState.mk s' c'
      | .error _ => σ).store.lookup k).isSome = true
    cases hm : on_message σ.store σ.clients topic payload t with
    | error e => simpa using h
    | ok res =>
      obtain ⟨s', c', b⟩ := res
      rcases on_message_result σ.store σ.clients topic payload t _ hm with h2 | ⟨k', img, h2⟩
      · injection h2 with hs _
        simpa [hs] using h
      · injection h2 with hs _
        show ((s' : Store).lookup k).isSome = true
        rw [hs, lookup_dictSet]
        split
        · rfl
        · exact h
  | httpImage cam obj => exact h
  | httpGallery => exact h
  | httpStatus => exact h
  | sseConnect => exact h

/-- C7: starting from any state, no operation (message processing or HTTP
read) ever removes a store entry: along any operation sequence the key set
is monotone non-decreasing; the store is empty at startup; and a write to
an existing key replaces its record wholesale while leaving every other
key's record untouched (last-write-wins by processing order). -/
theorem store_keys_monotone :
    initState.store = [] ∧
    (∀ (ops : List Op) (σ : SysState) (k : Key),
      (σ.store.lookup k).isSome = true →
      ((ops.foldl step σ).store.lookup k).isSome = true) ∧
    (∀ (s : Store) (k : Key) (r : Record), (dictSet s k r).lookup k = some r) ∧
    (∀ (s : Store) (k k' : Key) (r : Record), k' ≠ k →
      (dictSet s k r).lookup k' = s.lookup k') := by
  refine ⟨rfl, ?_, ?_, ?_⟩
  · intro ops
    induction ops with
    | nil => exact fun σ k h => h
    | cons op ops ih =>
      intro σ k h
      exact ih (step σ op) k (step_keys_mono σ op k h)
  · intro s k r
    rw [lookup_dictSet]
    simp
  · intro s k k' r hne
    rw [lookup_dictSet, if_neg hne]

/-- Witness for C7: a two-operation run (a raw-JPEG message for a new key,
then an SSE connect) keeps the pre-existing key present. -/
theorem store_keys_monotone_witness :
    ((SysState.mk [(("a", "b"), ⟨[255, 216, 255], 0⟩)] []).store.lookup
      ("a", "b")).isSome = true ∧
    (([Op.msg "frigate/cam1/person/snapshot" [255, 216, 255, 0] 1,
        Op.sseConnect].foldl step
        (SysState.mk [(("a", "b"), ⟨[255, 216, 255], 0⟩)] [])).store.lookup
      ("a", "b")).isSome = true :=
  ⟨by decide,
   store_keys_monotone.2.1
     [Op.msg "frigate/cam1/person/snapshot" [255, 216, 255, 0] 1,
      Op.sseConnect]
     (SysState.mk [(("a", "b"), ⟨[255, 216, 255], 0⟩)] []) ("a", "b")
     (by decide)⟩

/-- C9: an image query for a key with no stored record yields the explicit
empty result 204 with no body; for a stored record it yields 200 carrying
exactly the stored bytes, the cache-defeating `Cache-Control` directive and
the `X-Image-Timestamp` header with the record's capture time; the query
never modifies the module state. -/
theorem image_endpoint_spec (σ : SysState) (cam obj : String) :
    (σ.store.lookup (cam, obj) = none →
      image_endpoint σ.store cam obj = ⟨204, [], none, none⟩) ∧
    (∀ r, σ.store.lookup (cam, obj) = some r →
      image_endpoint σ.store cam obj =
        ⟨200, r.img, some cacheControlValue, some r.ts⟩) ∧
    step σ (.httpImage cam obj) = σ := by
  refine ⟨?_, ?_, rfl⟩
  · intro h
    unfold image_endpoint
    rw [h]
  · intro r h
    unfold image_endpoint
    rw [h]

/-- Witness for C9: over `demoStore`, a present key yields 200 with the
stored bytes and headers, an absent key yields 204. -/
theorem image_endpoint_spec_witness :
    demoStore.lookup ("cam1", "obj1") = some ⟨[255, 216, 255], 11 / 2⟩ ∧
    image_endpoint demoStore "cam1" "obj1" =
      ⟨200, [255, 216, 255], some cacheControlValue, some (11 / 2)⟩ ∧
    demoStore.lookup ("nope", "nope") = none ∧
    image_endpoint demoStore "nope" "nope" = ⟨204, [], none, none⟩ :=
  ⟨rfl, (image_endpoint_spec (SysState.mk demoStore []) "cam1" "obj1").2.1 _ rfl,
   rfl, (image_endpoint_spec (SysState.mk demoStore []) "nope" "nope").1 rfl⟩

/-- C10: a falsy payload (empty bytes, empty string, or `None`) makes both
variants return `False` immediately — before the JPEG-marker, URL and
base64 branches — with no store mutation, no notification, and no
exception. -/
theorem empty_payload_noop (p : Payload) (σ : SingleState) (t : ℚ)
    (s : Store) (clients : List Nat) (cam obj : String) (t' : ℚ)
    (h : p.data = []) :
    store_image_if_jpeg p = none ∧
    store_image_if_jpeg_state σ p t = (σ, false) ∧
    store_image_for_topic s clients cam obj [] t' = .ok (s, clients, false) := by
  have h1 : store_image_if_jpeg p = none := by
    simp [store_image_if_jpeg, h]
  refine ⟨h1, ?_, rfl⟩
  unfold store_image_if_jpeg_state
  rw [h1]

/-- Witness for C10: the `None` payload on the single-topic variant and the
empty bytes payload on the multi-topic variant. -/
theorem empty_payload_noop_witness :
    Payload.data .pynone = [] ∧
    store_image_if_jpeg .pynone = none ∧
    store_image_if_jpeg_state ⟨none, 0⟩ .pynone 7 = (⟨none, 0⟩, false) ∧
    store_image_for_topic [] [] "cam1" "person" [] 7 = .ok ([], [], false) :=
  ⟨rfl,
   (empty_payload_noop .pynone ⟨none, 0⟩ 7 [] [] "cam1" "person" 7 rfl).1,
   (empty_payload_noop .pynone ⟨none, 0⟩ 7 [] [] "cam1" "person" 7 rfl).2.1,
   (empty_payload_noop .pynone ⟨none, 0⟩ 7 [] [] "cam1" "person" 7 rfl).2.2⟩
